import Mathlib

/-!
Verification of the browser-pool / session-lifecycle subsystem of the
car-parts scraper service (`src/temp/app.py`).

The Python code is shallowly embedded: each `BrowserInstance` method becomes a
pure Lean function on an explicit record of the instance's fields, and the
pool-level operations become functions (or a step relation) on the registry,
a `List BrowserInstance`.  Concurrency is modelled by letting the environment
choose interleavings: loop iterations of `acquire` observe arbitrary registry
snapshots, and liveness probes take their success as an explicit boolean input
(the probe `self.driver.title` either succeeds or raises).

Modelling conventions:
* timestamps (`time.time()`) are `Nat`; the reaper's `now - last_used`
  becomes truncated `Nat` subtraction, which agrees with the Python float
  subtraction on both sides of the strict comparison used by the code;
* the opaque Selenium driver handle is `Option Nat` (`None` / some handle);
  the derived `self.wait` object and the `_service_pid` bookkeeping used only
  for the force-kill safety net carry no pool-visible state and are elided;
* a `threading.Lock` is its observable state `lockHeld : Bool`; a successful
  non-blocking `lock.acquire(blocking=False)` flips `false` to `true`,
  `lock.release()` on a free lock raises `RuntimeError` (which the code
  swallows), leaving the lock free.
-/

/-- `POOL_MAX_INSTANCES = 3` — capacity cap: 1 permanent + up to 2 temp. -/
def POOL_MAX_INSTANCES : Nat := 3

/-- `IDLE_KILL_AFTER = 300` — kill a temp instance after 5 min idle. -/
def IDLE_KILL_AFTER : Nat := 300

/-- `IDLE_CHECK_EVERY = 60` — the reaper runs every 60 s. -/
def IDLE_CHECK_EVERY : Nat := 60

/-- One Chrome session with its own state (`class BrowserInstance`).
Fields mirror the Python attributes set in `__init__` / `start`. -/
structure BrowserInstance where
  id : Nat
  permanent : Bool
  lockHeld : Bool
  driver : Option Nat
  autodoc_cookie_handled : Bool
  realoem_cookie_handled : Bool
  last_used : Nat
  alive : Bool
deriving DecidableEq, Repr

/-- `BrowserInstance.__init__(permanent)`: fresh id, lock free, no driver,
warm-up flags clear, `last_used = time.time()`, `_alive = False`. -/
def BrowserInstance.init (idv : Nat) (permanent : Bool) (now : Nat) : BrowserInstance :=
  { id := idv
    permanent := permanent
    lockHeld := false
    driver := none
    autodoc_cookie_handled := false
    realoem_cookie_handled := false
    last_used := now
    alive := false }

/-- `start()`: spin up Chrome — the driver becomes a fresh handle (chosen by
the environment) and `_alive = True`. -/
def BrowserInstance.start (i : BrowserInstance) (fresh : Nat) : BrowserInstance :=
  { i with driver := some fresh, alive := true }

/-- `quit()`: `_alive = False`; if a driver exists it is quit and the handle
dropped (`self.driver = None`).  The Python guard `if self.driver is not None`
only skips writing `None` over `None`, so the field is `none` either way. -/
def BrowserInstance.quit (i : BrowserInstance) : BrowserInstance :=
  { i with alive := false, driver := none }

/-- `is_alive()`: returns `False` outright when `not self._alive or
self.driver is None`; otherwise probes `self.driver.title`, whose outcome the
environment supplies as `probeOk` — on an exception `_alive` is set `False`.
Returns the probe verdict together with the (possibly mutated) instance. -/
def BrowserInstance.is_alive (i : BrowserInstance) (probeOk : Bool) :
    Bool × BrowserInstance :=
  if !i.alive || i.driver.isNone then (false, i)
  else if probeOk then (true, i)
  else (false, { i with alive := false })

/-- `revive()`: `quit()`, clear both per-site warm-up flags, then `start()`
with a fresh driver handle. -/
def BrowserInstance.revive (i : BrowserInstance) (fresh : Nat) : BrowserInstance :=
  let i1 := i.quit
  let i2 := { i1 with autodoc_cookie_handled := false, realoem_cookie_handled := false }
  i2.start fresh

/-- `touch()`: `self.last_used = time.time()`. -/
def BrowserInstance.touch (i : BrowserInstance) (now : Nat) : BrowserInstance :=
  { i with last_used := now }

/-- The liveness flag is only trusted when a driver handle exists: the
intended invariant relating `_alive` and `self.driver`. -/
def AliveInv (i : BrowserInstance) : Prop := i.alive = true → i.driver.isSome

/-- C6: `revive()` preserves `id` and the permanent/temporary kind, replaces
the old driver by the fresh one, clears both warm-up flags, and resets
liveness to the fresh-start value (`_alive = True`, not yet probe-confirmed);
the lock state and `last_used` are the only other fields and are untouched. -/
theorem revive_preserves_identity (i : BrowserInstance) (fresh : Nat) :
    (i.revive fresh).id = i.id ∧
    (i.revive fresh).permanent = i.permanent ∧
    (i.revive fresh).driver = some fresh ∧
    (i.revive fresh).autodoc_cookie_handled = false ∧
    (i.revive fresh).realoem_cookie_handled = false ∧
    (i.revive fresh).alive = true ∧
    (i.revive fresh).lockHeld = i.lockHeld ∧
    (i.revive fresh).last_used = i.last_used := by
  simp [BrowserInstance.revive, BrowserInstance.quit, BrowserInstance.start]

/-- C10: every lifecycle operation preserves `AliveInv` (`_alive = True` only
with a driver handle present); a never-started instance and a just-quit
instance both answer `is_alive() = False` (without raising — the probe is not
even attempted since the guard short-circuits), and after `quit()` the driver
handle is `None`. -/
theorem alive_implies_driver_invariant (i : BrowserInstance) (fresh : Nat)
    (probeOk : Bool) (idv : Nat) (perm : Bool) (now : Nat)
    (h : AliveInv i) :
    AliveInv (i.start fresh) ∧
    AliveInv i.quit ∧
    AliveInv (i.is_alive probeOk).2 ∧
    AliveInv (i.revive fresh) ∧
    ((BrowserInstance.init idv perm now).is_alive probeOk).1 = false ∧
    (i.quit.is_alive probeOk).1 = false ∧
    i.quit.driver = none ∧
    i.quit.alive = false := by
  refine ⟨?_, ?_, ?_, ?_, ?_, ?_, rfl, rfl⟩
  · intro _; simp [BrowserInstance.start]
  · intro hq; simp [BrowserInstance.quit] at hq
  · unfold BrowserInstance.is_alive
    by_cases hg : (!i.alive || i.driver.isNone) = true
    · simpa [hg] using h
    · by_cases hp : probeOk = true
      · simpa [hg, hp] using h
      · intro hq
        simp [hg, hp] at hq
  · intro _; simp [BrowserInstance.revive, BrowserInstance.quit, BrowserInstance.start]
  · simp [BrowserInstance.init, BrowserInstance.is_alive]
  · simp [BrowserInstance.quit, BrowserInstance.is_alive]

/-- Witness for C10 at a concrete live instance. -/
theorem alive_implies_driver_invariant_witness :
    AliveInv { id := 1, permanent := true, lockHeld := false, driver := some 7,
               autodoc_cookie_handled := false, realoem_cookie_handled := false,
               last_used := 0, alive := true } ∧
    AliveInv ({ id := 1, permanent := true, lockHeld := false, driver := some 7,
                autodoc_cookie_handled := false, realoem_cookie_handled := false,
                last_used := 0, alive := true : BrowserInstance}.start 9) :=
  ⟨by intro _; rfl,
   (alive_implies_driver_invariant _ 9 true 2 false 0 (by intro _; rfl)).1⟩

/-- A successful non-blocking `lock.acquire(blocking=False)`: succeeds exactly
when the lock is free, and then holds it. -/
def tryLock (i : BrowserInstance) : Bool × BrowserInstance :=
  if i.lockHeld then (false, i) else (true, { i with lockHeld := true })

/-- `BrowserPool.release(inst)`: `touch()` then `inst.lock.release()`; the
`RuntimeError` raised by releasing an already-free lock is swallowed
(`pass  # already released`), leaving the lock free. -/
def BrowserPool.release (i : BrowserInstance) (now : Nat) : BrowserInstance :=
  let t := i.touch now
  if t.lockHeld then { t with lockHeld := false } else t

/-- C4: `release()` never raises and leaves the lock free whatever the prior
lock state, so a double release (and any longer sequence of releases after a
single acquire) is a safe no-op on the lock, which stays re-acquirable by
another caller; every `release()` runs `touch()` (updating `last_used`)
before unlocking. -/
theorem release_double_safe (i : BrowserInstance) (now : Nat) (times : List Nat) :
    (BrowserPool.release i now).lockHeld = false ∧
    (BrowserPool.release i now).last_used = now ∧
    (times.foldl BrowserPool.release (BrowserPool.release i now)).lockHeld = false ∧
    (tryLock (times.foldl BrowserPool.release (BrowserPool.release i now))).1 = true := by
  have hrel : ∀ (j : BrowserInstance) (t : Nat),
      (BrowserPool.release j t).lockHeld = false ∧
      (BrowserPool.release j t).last_used = t := by
    intro j t
    unfold BrowserPool.release BrowserInstance.touch
    by_cases h : j.lockHeld <;> simp [h]
  have hfold : ∀ (ts : List Nat) (j : BrowserInstance), j.lockHeld = false →
      (ts.foldl BrowserPool.release j).lockHeld = false := by
    intro ts
    induction ts with
    | nil => intro j hj; simpa using hj
    | cons t ts ih =>
        intro j _
        simpa using ih (BrowserPool.release j t) (hrel _ _).1
  have h1 := (hrel i now).1
  have h3 := hfold times _ h1
  exact ⟨h1, (hrel i now).2, h3, by simp [tryLock, h3]⟩

/-- The post-scan section of `BrowserPool.acquire` (lines 221-230), run
outside the pool lock once a candidate's lock was grabbed: probe
`inst.is_alive()`; if dead, `inst.revive()` and clear both cookie flags;
finally `inst.touch()` and return the instance. -/
def acquirePost (i : BrowserInstance) (probeOk : Bool) (fresh : Nat) (now : Nat) :
    BrowserInstance :=
  let chk := i.is_alive probeOk
  let i1 :=
    if chk.1 then chk.2
    else
      let r := chk.2.revive fresh
      { r with autodoc_cookie_handled := false, realoem_cookie_handled := false }
  i1.touch now

/-- C3: whenever `acquire()` returns an instance, the caller still holds its
lock, `touch()` has set `last_used` to the return time, the liveness flag is
set (a dead probe triggered a `revive`, a live probe left a live instance —
never is a last-probed-dead instance returned), and when the probe came back
dead both warm-up flags are clear and the driver is the fresh post-revive
handle. -/
theorem acquire_post_returns_live_session (i : BrowserInstance) (probeOk : Bool)
    (fresh : Nat) (now : Nat) (h : i.lockHeld = true) :
    (acquirePost i probeOk fresh now).lockHeld = true ∧
    (acquirePost i probeOk fresh now).last_used = now ∧
    (acquirePost i probeOk fresh now).alive = true ∧
    (acquirePost i probeOk fresh now).id = i.id ∧
    ((i.is_alive probeOk).1 = false →
      (acquirePost i probeOk fresh now).autodoc_cookie_handled = false ∧
      (acquirePost i probeOk fresh now).realoem_cookie_handled = false ∧
      (acquirePost i probeOk fresh now).driver = some fresh) := by
  cases i with
  | mk idv perm lh dr ac rc lu al =>
    cases al <;> cases dr <;> cases probeOk <;>
      simp_all [acquirePost, BrowserInstance.is_alive, BrowserInstance.revive,
        BrowserInstance.quit, BrowserInstance.start, BrowserInstance.touch]

/-- Witness for C3 at a concrete held, dead instance. -/
theorem acquire_post_returns_live_session_witness :
    ({ id := 2, permanent := false, lockHeld := true, driver := none,
       autodoc_cookie_handled := true, realoem_cookie_handled := true,
       last_used := 5, alive := false : BrowserInstance}.lockHeld = true) ∧
    (acquirePost { id := 2, permanent := false, lockHeld := true, driver := none,
                   autodoc_cookie_handled := true, realoem_cookie_handled := true,
                   last_used := 5, alive := false } false 11 42).lockHeld = true :=
  ⟨rfl, (acquire_post_returns_live_session _ false 11 42 rfl).1⟩

/-- `BrowserPool.status()`: the health dict, computed under the pool lock.
The Python `sum(1 for i in ... if cond)` generators are `countP`; the dict is
an association list in the insertion order of the Python literal, including
the literal key strings — note the last key is `"temp"`. -/
def BrowserPool.status (l : List BrowserInstance) : List (String × Nat) :=
  [("total", l.length),
   ("busy", l.countP (fun i => i.lockHeld)),
   ("idle", l.countP (fun i => !i.lockHeld)),
   ("permanent", l.countP (fun i => i.permanent)),
   ("temp", l.countP (fun i => !i.permanent))]

/-- C9 (counterexample): the claim names the fifth key `temporary`, but the
code's dict literal uses the key `temp` — already on the empty registry the
key list differs from the claimed one. -/
theorem status_keys_counterexample :
    (BrowserPool.status []).map Prod.fst ≠
      ["total", "busy", "idle", "permanent", "temporary"] ∧
    (BrowserPool.status []).map Prod.fst =
      ["total", "busy", "idle", "permanent", "temp"] := by
  exact ⟨by decide, rfl⟩

/-- Helper: a boolean predicate and its negation split the length. -/
theorem countP_split {α : Type} (l : List α) (p : α → Bool) :
    l.countP p + l.countP (fun a => !(p a)) = l.length := by
  induction l with
  | nil => simp
  | cons a t ih => by_cases h : p a <;> simp [List.countP_cons, h] <;> omega

/-- C9 (amended): `status()` returns a record with exactly the keys `total`,
`busy`, `idle`, `permanent`, `temp` (not `temporary`), where `total` is the
registry size, `busy` counts held locks, `idle` counts free locks,
`busy + idle = total`, and `permanent + temp = total`. -/
theorem status_counts_amended (l : List BrowserInstance) :
    (BrowserPool.status l).map Prod.fst =
      ["total", "busy", "idle", "permanent", "temp"] ∧
    (BrowserPool.status l).lookup "total" = some l.length ∧
    (BrowserPool.status l).lookup "busy" = some (l.countP (fun i => i.lockHeld)) ∧
    (BrowserPool.status l).lookup "idle" = some (l.countP (fun i => !i.lockHeld)) ∧
    (BrowserPool.status l).lookup "permanent" = some (l.countP (fun i => i.permanent)) ∧
    (BrowserPool.status l).lookup "temp" = some (l.countP (fun i => !i.permanent)) ∧
    l.countP (fun i => i.lockHeld) + l.countP (fun i => !i.lockHeld) = l.length ∧
    l.countP (fun i => i.permanent) + l.countP (fun i => !i.permanent) = l.length := by
  refine ⟨rfl, rfl, rfl, rfl, rfl, rfl, countP_split l _, countP_split l _⟩

/-- The reaper's kill condition (evaluated under the pool lock), in the
Python conjunction order: `not inst.permanent and not inst.lock.locked() and
(now - inst.last_used) > IDLE_KILL_AFTER`. -/
def reapPred (now : Nat) (i : BrowserInstance) : Bool :=
  !i.permanent && !i.lockHeld && decide (now - i.last_used > IDLE_KILL_AFTER)

/-- One cycle of `BrowserPool._idle_reaper` after the `sleep`: under the pool
lock, build `to_kill` by the comprehension and `remove` each of its members
from the registry; then, outside the lock, `quit()` each killed instance.
Returns the new registry and the quit instances. -/
def BrowserPool.idle_reaper_cycle (l : List BrowserInstance) (now : Nat) :
    List BrowserInstance × List BrowserInstance :=
  let to_kill := l.filter (reapPred now)
  let remaining := to_kill.foldl (fun acc i => acc.erase i) l
  (remaining, to_kill.map BrowserInstance.quit)

/-- Helper: erasing elements not equal to the head leaves the head in place. -/
theorem foldl_erase_cons_of_not_mem {α : Type} [DecidableEq α]
    (ks : List α) (a : α) (t : List α) (ha : a ∉ ks) :
    ks.foldl (fun acc i => acc.erase i) (a :: t) =
      a :: ks.foldl (fun acc i => acc.erase i) t := by
  induction ks generalizing t with
  | nil => rfl
  | cons k ks ih =>
      have hak : a ≠ k := fun he => ha (he ▸ List.mem_cons_self k ks)
      have hks : a ∉ ks := fun hm => ha (List.mem_cons_of_mem k hm)
      simp only [List.foldl_cons]
      rw [List.erase_cons_tail (by simpa using hak), ih _ hks]

/-- Helper: on a duplicate-free list, removing every element satisfying `p`
one by one (Python's `list.remove` loop) is filtering by `!p`. -/
theorem foldl_erase_filter {α : Type} [DecidableEq α]
    (l : List α) (p : α → Bool) (h : l.Nodup) :
    (l.filter p).foldl (fun acc i => acc.erase i) l =
      l.filter (fun a => !(p a)) := by
  induction l with
  | nil => rfl
  | cons a t ih =>
      have ha : a ∉ t := (List.nodup_cons.mp h).1
      have ht : t.Nodup := (List.nodup_cons.mp h).2
      by_cases hp : p a = true
      · simp only [List.filter_cons, hp, if_pos, List.foldl_cons,
          List.erase_cons_head]
        rw [ih ht]
        simp [List.filter_cons, hp]
      · have hp2 : p a = false := by simpa using hp
        have hnk : a ∉ t.filter p := fun hm => ha (List.mem_of_mem_filter hm)
        simp only [List.filter_cons, hp2, Bool.false_eq_true, if_neg,
          not_false_iff]
        rw [foldl_erase_cons_of_not_mem _ _ _ hnk, ih ht]
        simp [List.filter_cons, hp2]

/-- C7: in one reaper cycle on a duplicate-free registry, the remaining
registry is exactly the instances NOT satisfying the kill condition
(temporary ∧ lock free ∧ idle beyond `IDLE_KILL_AFTER`), i.e. the removed set
is exactly those satisfying it; a permanent instance always survives; and
`quit()` is applied (after the registry update) to precisely the removed
instances. -/
theorem idle_reaper_exact_removal (l : List BrowserInstance) (now : Nat)
    (h : l.Nodup) :
    (BrowserPool.idle_reaper_cycle l now).1 =
      l.filter (fun i => !(reapPred now i)) ∧
    (BrowserPool.idle_reaper_cycle l now).2 =
      (l.filter (reapPred now)).map BrowserInstance.quit ∧
    (∀ i ∈ l, i.permanent = true →
      i ∈ (BrowserPool.idle_reaper_cycle l now).1) ∧
    (∀ i ∈ l, reapPred now i = true →
      i ∉ (BrowserPool.idle_reaper_cycle l now).1) ∧
    (∀ i ∈ l, reapPred now i = false →
      i ∈ (BrowserPool.idle_reaper_cycle l now).1) := by
  have hrem : (BrowserPool.idle_reaper_cycle l now).1 =
      l.filter (fun i => !(reapPred now i)) :=
    foldl_erase_filter l (reapPred now) h
  refine ⟨hrem, rfl, ?_, ?_, ?_⟩
  · intro i hi hperm
    rw [hrem, List.mem_filter]
    exact ⟨hi, by simp [reapPred, hperm]⟩
  · intro i hi hkill hmem
    rw [hrem, List.mem_filter] at hmem
    simp [hkill] at hmem
  · intro i hi hkeep
    rw [hrem, List.mem_filter]
    exact ⟨hi, by simp [hkeep]⟩

/-- A concrete permanent, idle, long-unused instance. -/
def reaperPermExample : BrowserInstance :=
  { id := 1, permanent := true, lockHeld := false, driver := some 1,
    autodoc_cookie_handled := false, realoem_cookie_handled := false,
    last_used := 0, alive := true }

/-- A concrete temporary, idle, long-unused instance. -/
def reaperTempExample : BrowserInstance :=
  { id := 2, permanent := false, lockHeld := false, driver := some 2,
    autodoc_cookie_handled := false, realoem_cookie_handled := false,
    last_used := 0, alive := true }

/-- Witness for C7: a two-instance registry at `now = 1000` (both idle for
longer than the threshold). -/
theorem idle_reaper_exact_removal_witness :
    ([reaperPermExample, reaperTempExample].Nodup) ∧
    (BrowserPool.idle_reaper_cycle [reaperPermExample, reaperTempExample] 1000).1 =
      [reaperPermExample, reaperTempExample].filter
        (fun i => !(reapPred 1000 i)) :=
  ⟨by decide, (idle_reaper_exact_removal _ 1000 (by decide)).1⟩

/-- Result of `BrowserPool.acquire`: either a leased instance or the
`RuntimeError("BrowserPool: no instance available within timeout")`. -/
inductive AcquireResult where
  | success (inst : BrowserInstance)
  | exhausted
deriving DecidableEq, Repr

/-- The `acquire(timeout)` polling loop.  Each `while time.time() < deadline`
iteration takes the pool lock and observes the then-current registry — other
threads mutate it between iterations, so the iterations' snapshots are an
input list, one snapshot per iteration, and the list's length is the number
of iterations the deadline allows.  Within one iteration: scan in creation
order for the first instance whose non-blocking lock acquisition succeeds
(`find?` of a free lock) and return it locked; otherwise, if this call has
not spawned yet (`spawned` flag) and the snapshot is below
`POOL_MAX_INSTANCES`, append one pre-locked temp instance (its `start()` runs
on a background thread; being pre-locked it is not acquirable this
iteration) and set `spawned`.  When the snapshots run out the deadline has
passed and the `RuntimeError` is raised.  The second component counts how
many temp instances this call appended. -/
def BrowserPool.acquireLoop :
    List (List BrowserInstance) → Bool → AcquireResult × Nat
  | [], _ => (.exhausted, 0)
  | snap :: rest, spawned =>
    match snap.find? (fun i => !i.lockHeld) with
    | some inst => (.success { inst with lockHeld := true }, 0)
    | none =>
      if !spawned && decide (snap.length < POOL_MAX_INSTANCES) then
        let r := BrowserPool.acquireLoop rest true
        (r.1, r.2 + 1)
      else
        BrowserPool.acquireLoop rest spawned

/-- Helper: once the `spawned` flag is set, the loop never spawns again. -/
theorem acquireLoop_spawned_no_spawn (snaps : List (List BrowserInstance)) :
    (BrowserPool.acquireLoop snaps true).2 = 0 := by
  induction snaps with
  | nil => rfl
  | cons snap rest ih =>
      unfold BrowserPool.acquireLoop
      cases snap.find? (fun i => !i.lockHeld) <;> simp [ih]

/-- C5: a single `acquire()` call appends at most one temp instance across
all iterations of its polling loop, however many iterations run and whatever
capacity headroom remains; and with the per-call `spawned` flag already set
it appends none. -/
theorem acquire_spawns_at_most_one (snaps : List (List BrowserInstance)) :
    (BrowserPool.acquireLoop snaps false).2 ≤ 1 ∧
    (BrowserPool.acquireLoop snaps true).2 = 0 := by
  refine ⟨?_, acquireLoop_spawned_no_spawn snaps⟩
  induction snaps with
  | nil => simp [BrowserPool.acquireLoop]
  | cons snap rest ih =>
      unfold BrowserPool.acquireLoop
      cases snap.find? (fun i => !i.lockHeld) with
      | some inst => simp
      | none =>
          by_cases hc : snap.length < POOL_MAX_INSTANCES
          · simp [hc, acquireLoop_spawned_no_spawn rest]
          · simpa [hc] using ih

/-- The `/scrape` endpoint's acquire step (`pool.acquire(timeout=30)` in a
`try`): a `RuntimeError` becomes `HTTPException(503, "All scrapers busy,
please retry in a moment")`, otherwise the handler proceeds with the leased
instance. -/
inductive ScrapeAcquire where
  | busy (statusCode : Nat) (detail : String)
  | proceed (inst : BrowserInstance)
deriving DecidableEq, Repr

/-- `scrape_barcode`'s acquire phase over the iteration snapshots. -/
def scrape_barcode_acquire (snaps : List (List BrowserInstance)) : ScrapeAcquire :=
  match (BrowserPool.acquireLoop snaps false).1 with
  | .exhausted => .busy 503 "All scrapers busy, please retry in a moment"
  | .success inst => .proceed inst

/-- Helper: the loop result does not depend on the spawned flag (the flag
only gates registry growth), so exhaustion is characterized uniformly. -/
theorem acquireLoop_exhausted_iff (snaps : List (List BrowserInstance))
    (spawned : Bool) :
    (BrowserPool.acquireLoop snaps spawned).1 = .exhausted ↔
      ∀ snap ∈ snaps, ∀ i ∈ snap, i.lockHeld = true := by
  induction snaps generalizing spawned with
  | nil => simp [BrowserPool.acquireLoop]
  | cons snap rest ih =>
      unfold BrowserPool.acquireLoop
      cases hf : snap.find? (fun i => !i.lockHeld) with
      | some inst =>
          have hmem := List.find?_some hf
          have hin := List.mem_of_find?_eq_some hf
          simp only [Bool.not_eq_true'] at hmem
          constructor
          · intro hc; cases hc
          · intro hall
            exact absurd (hall snap (List.mem_cons_self _ _) inst hin) (by simp [hmem])
      | none =>
          have hnone : ∀ i ∈ snap, i.lockHeld = true := by
            intro i hi
            have := List.find?_eq_none.mp hf i hi
            simpa using this
          by_cases hc : (!spawned && decide (snap.length < POOL_MAX_INSTANCES)) = true
          · simp only [hc, if_pos]
            rw [ih true]
            constructor
            · intro hall
              intro s hs
              rcases List.mem_cons.mp hs with rfl | hs2
              · exact hnone
              · exact hall s hs2
            · intro hall s hs
              exact hall s (List.mem_cons_of_mem _ hs)
          · simp only [hc, if_neg, Bool.false_eq_true, not_false_iff]
            rw [ih spawned]
            constructor
            · intro hall s hs
              rcases List.mem_cons.mp hs with rfl | hs2
              · exact hnone
              · exact hall s hs2
            · intro hall s hs
              exact hall s (List.mem_cons_of_mem _ hs)

/-- Helper: any instance the loop returns has its lock held (the scan grabs
the lock on the instance it returns). -/
theorem acquireLoop_success_lockHeld (snaps : List (List BrowserInstance))
    (spawned : Bool) (inst : BrowserInstance)
    (h : (BrowserPool.acquireLoop snaps spawned).1 = .success inst) :
    inst.lockHeld = true := by
  induction snaps generalizing spawned with
  | nil => simp [BrowserPool.acquireLoop] at h
  | cons snap rest ih =>
      unfold BrowserPool.acquireLoop at h
      cases hf : snap.find? (fun i => !i.lockHeld) with
      | some j =>
          simp only [hf, AcquireResult.success.injEq] at h
          rw [← h]
      | none =>
          simp only [hf] at h
          by_cases hc : (!spawned && decide (snap.length < POOL_MAX_INSTANCES)) = true
          · rw [if_pos hc] at h
            exact ih true (by simpa using h)
          · rw [if_neg (by simpa using hc)] at h
            exact ih spawned h

/-- C8: the `/scrape` handler receives the retryable 503 busy response from
its acquire phase exactly when, in every iteration the 30 s deadline allowed,
every registry instance's lock was held (no non-blocking lock acquisition
succeeded before the deadline — with no snapshots at all, i.e. the deadline
already passed, it is also exhausted); and whenever an instance is returned
instead, its lock was obtained by the caller (it was free in its snapshot and
is returned held). -/
theorem acquire_exhausted_iff_busy (snaps : List (List BrowserInstance)) :
    (scrape_barcode_acquire snaps =
        .busy 503 "All scrapers busy, please retry in a moment" ↔
      ∀ snap ∈ snaps, ∀ i ∈ snap, i.lockHeld = true) ∧
    (∀ inst, scrape_barcode_acquire snaps = .proceed inst →
      inst.lockHeld = true) := by
  constructor
  · rw [← acquireLoop_exhausted_iff snaps false]
    unfold scrape_barcode_acquire
    cases (BrowserPool.acquireLoop snaps false).1 <;> simp
  · intro inst hp
    unfold scrape_barcode_acquire at hp
    cases hres : (BrowserPool.acquireLoop snaps false).1 with
    | exhausted => rw [hres] at hp; cases hp
    | success j =>
        rw [hres] at hp
        simp only [ScrapeAcquire.proceed.injEq] at hp
        exact hp ▸ acquireLoop_success_lockHeld snaps false j hres

/-- `BrowserPool.start()`: the permanent instance is created, `start()`ed,
pre-locked for its background warm-up, and appended to the empty registry;
this is the registry as `start()` leaves it. -/
def BrowserPool.start_registry (idv fresh now : Nat) : List BrowserInstance :=
  [{ (BrowserInstance.init idv true now).start fresh with lockHeld := true }]

/-- The registry mutations performed under the pool lock after startup:
`update` — any in-place mutation of one registered instance (lock grab or
free, `touch`, `revive`, warm-up flags, watchdog `quit`), which never changes
the registry size; `spawnTemp` — `acquire()`'s spawn of one pre-locked temp
instance, guarded by `pool_size < POOL_MAX_INSTANCES`; `removeSublist` —
removals (the idle reaper's kills, `_start_instance`'s removal of an
instance whose Chrome failed to start, and `shutdown()`'s clear), which only
ever delete entries.  No other code path touches `self._instances`. -/
inductive PoolStep : List BrowserInstance → List BrowserInstance → Prop where
  | update (l : List BrowserInstance) (n : Nat) (i : BrowserInstance) :
      PoolStep l (l.set n i)
  | spawnTemp (l : List BrowserInstance) (i : BrowserInstance)
      (hcap : l.length < POOL_MAX_INSTANCES)
      (htemp : i.permanent = false) (hlock : i.lockHeld = true) :
      PoolStep l (l ++ [i])
  | removeSublist (l l2 : List BrowserInstance) (h : l2.Sublist l) :
      PoolStep l l2

/-- Registries reachable from `BrowserPool.start()` (which the service calls
once, from the FastAPI lifespan hook) by any interleaving of the pool's
operations. -/
inductive PoolReachable : List BrowserInstance → Prop where
  | started (idv fresh now : Nat) :
      PoolReachable (BrowserPool.start_registry idv fresh now)
  | step (l l2 : List BrowserInstance) (h : PoolReachable l)
      (hs : PoolStep l l2) : PoolReachable l2

/-- C1: every reachable registry has at most `POOL_MAX_INSTANCES` (3)
entries: `start()` installs exactly one (permanent) instance, `acquire()`
appends one temp instance only under the size guard checked while holding
the pool lock, and every other registry operation preserves or shrinks the
size. -/
theorem pool_registry_capacity_invariant (l : List BrowserInstance)
    (h : PoolReachable l) : l.length ≤ POOL_MAX_INSTANCES := by
  induction h with
  | started idv fresh now =>
      simp [BrowserPool.start_registry, POOL_MAX_INSTANCES]
  | step l l2 hr hs ih =>
      cases hs with
      | update n i => simpa using ih
      | spawnTemp i hcap htemp hlock =>
          simp only [List.length_append, List.length_cons, List.length_nil]
          omega
      | removeSublist m hsub => exact le_trans hsub.length_le ih

/-- Witness for C1: the registry right after `start()`. -/
theorem pool_registry_capacity_invariant_witness :
    PoolReachable (BrowserPool.start_registry 1 5 0) ∧
    (BrowserPool.start_registry 1 5 0).length ≤ POOL_MAX_INSTANCES :=
  ⟨PoolReachable.started 1 5 0,
   pool_registry_capacity_invariant _ (PoolReachable.started 1 5 0)⟩

/-- The response model returned by `/scrape` (`class ProductResponse`);
fields irrelevant to the pool (the scraped payload) are kept abstract as an
optional opaque value. -/
structure ProductResponse where
  success : Bool
  barcode : String
  scraper : String
  error : Option String
  data : Option String
deriving DecidableEq, Repr

/-- The watchdog's distinguishable timeout message,
`f"Scrape timed out after {timeout}s"`. -/
def timeoutMessage (timeout : Nat) : String :=
  s!"Scrape timed out after {timeout}s"

/-- What `_run_scrape(inst, barcode, scraper)` did: returned a
`ProductResponse`, or raised (the exception text). -/
inductive RunOutcome where
  | ret (r : ProductResponse)
  | exn (e : String)
deriving DecidableEq, Repr

/-- The watchdog glue in `scrape_barcode` around `_run_scrape` (the `timer`
is cancelled on both paths before the checks): `timedOutSet` is the one-shot
`timed_out` event as observed after the call — set exactly when the watchdog
fired, in which case it also `quit()` the leased instance, making the
in-flight call fail.  A returned failure with the marker set, or an
exception with the marker set, is mapped to the timeout response; a returned
success is passed through unchanged even if the marker is set; an exception
without the marker becomes a generic error response. -/
def scrape_barcode_result (timeout : Nat) (barcode scraper : String)
    (timedOutSet : Bool) : RunOutcome → ProductResponse
  | .ret r =>
      if !r.success && timedOutSet then
        { success := false, barcode := barcode, scraper := scraper,
          error := some (timeoutMessage timeout), data := none }
      else r
  | .exn e =>
      if timedOutSet then
        { success := false, barcode := barcode, scraper := scraper,
          error := some (timeoutMessage timeout), data := none }
      else
        { success := false, barcode := barcode, scraper := scraper,
          error := some e, data := none }

/-- C2: a success from `_run_scrape` is returned to the caller unchanged,
whatever the state of the one-shot `timed_out` marker (completion beats a
late-firing watchdog); once the watchdog has fired, a returned failure and a
raised exception are both surfaced as the distinguishable
`Scrape timed out after .. s` error, not the raw underlying failure. -/
theorem scrape_watchdog_precedence (timeout : Nat) (bc sc : String)
    (r rf : ProductResponse) (e : String) (t : Bool)
    (hs : r.success = true) (hf : rf.success = false) :
    scrape_barcode_result timeout bc sc t (.ret r) = r ∧
    (scrape_barcode_result timeout bc sc true (.ret rf)).success = false ∧
    (scrape_barcode_result timeout bc sc true (.ret rf)).error =
      some (timeoutMessage timeout) ∧
    (scrape_barcode_result timeout bc sc true (.exn e)).success = false ∧
    (scrape_barcode_result timeout bc sc true (.exn e)).error =
      some (timeoutMessage timeout) := by
  refine ⟨?_, ?_, ?_, rfl, rfl⟩
  · simp [scrape_barcode_result, hs]
  · simp [scrape_barcode_result, hf]
  · simp [scrape_barcode_result, hf]

/-- Witness for C2: a concrete success response survives a set marker, at the
autodoc timeout of 120 s. -/
theorem scrape_watchdog_precedence_witness :
    ({ success := true, barcode := "b", scraper := "autodoc",
       error := none, data := none : ProductResponse }.success = true) ∧
    scrape_barcode_result 120 "b" "autodoc" true
      (.ret { success := true, barcode := "b", scraper := "autodoc",
              error := none, data := none }) =
      { success := true, barcode := "b", scraper := "autodoc",
        error := none, data := none } :=
  ⟨rfl,
   (scrape_watchdog_precedence 120 "b" "autodoc"
     { success := true, barcode := "b", scraper := "autodoc",
       error := none, data := none }
     { success := false, barcode := "b", scraper := "autodoc",
       error := none, data := none }
     "boom" true rfl rfl).1⟩

/-- A one-iteration schedule in which the only instance is already leased. -/
def busySnapshotExample : List BrowserInstance :=
  [{ id := 1, permanent := true, lockHeld := true, driver := some 1,
     autodoc_cookie_handled := false, realoem_cookie_handled := false,
     last_used := 0, alive := true }]

/-- Witness for C8 on the concrete all-busy schedule. -/
theorem acquire_exhausted_iff_busy_witness :
    (scrape_barcode_acquire [busySnapshotExample] =
        .busy 503 "All scrapers busy, please retry in a moment" ↔
      ∀ snap ∈ [busySnapshotExample], ∀ i ∈ snap, i.lockHeld = true) ∧
    (∀ inst, scrape_barcode_acquire [busySnapshotExample] = .proceed inst →
      inst.lockHeld = true) :=
  acquire_exhausted_iff_busy [busySnapshotExample]
